import Mathlib

/-!
Shallow embedding of the Networking Game client
(src/static/gamescript.js and the unnamed sibling script src/unnamed/part_000,
whose header names it static/networkinggamescript.js).

Network effects are modelled by passing the resolved result of each request
as an explicit argument: `none` stands for a rejected promise (transport or
JSON-parse failure caught by the surrounding try/catch, when one exists),
`some r` for a resolved response.  DOM writes are modelled either as fields
of an explicit output record or as an event trace.  JS strings are Lean
strings; JS numbers that the code treats as integers are Lean `Int`
(JS `%` is truncated remainder, `Int.tmod`).
-/

namespace NetworkingGame

/-- JS string truthiness fallback `x || d`: the empty string is falsy. -/
def jsOr (x d : String) : String := if x = "" then d else x

/-- JS `x || d` where `x` may be `undefined` (modelled as `none`). -/
def jsOrOpt (x : Option String) (d : String) : String :=
  match x with
  | some s => jsOr s d
  | none => d

/-! ### BadgeLabeler (gamescript.js lines 7-18) -/

/-- The curated label table `BADGE_LABELS` from gamescript.js. -/
def BADGE_LABELS : List (String × String) :=
  [("badge_first_connection", "🛰️ First Contact"),
   ("badge_week_streak_3", "🔥 3-Day Streak"),
   ("badge_resource_share", "🎁 Reciprocity Rookie"),
   ("badge_coffee_chat", "☕ Coffee Challenger"),
   ("badge_outreach_pro", "📡 Outreach Pro")]

/-- Regex `\w` (ASCII word character). -/
def isWordChar (c : Char) : Bool := c.isAlphanum || c = '_'

/-- `id.replace(/_/g, " ")`: every underscore becomes a space. -/
def underscoreToSpace (s : String) : String :=
  ⟨s.data.map (fun c => if c = '_' then ' ' else c)⟩

/-- One pass of `replace(/\b\w/g, m => m.toUpperCase())`: a word character
    standing at a word boundary (start of string, or right after a
    non-word character) is uppercased.  The boolean argument records
    whether the previous character was a word character. -/
def upWordStarts : Bool → List Char → List Char
  | _, [] => []
  | prevWord, c :: cs =>
      (if isWordChar c && !prevWord then c.toUpper else c) :: upWordStarts (isWordChar c) cs

/-- `s.replace(/\b\w/g, m => m.toUpperCase())`. -/
def titleCaseWords (s : String) : String := ⟨upWordStarts false s.data⟩

/-- The fallback branch of `prettyBadge`: Title-case an unknown id. -/
def prettyFallback (id : String) : String := titleCaseWords (underscoreToSpace id)

/-- `prettyBadge(id)` (gamescript.js lines 14-18): return the curated label
    when the table holds a truthy entry for `id`, otherwise the
    deterministic Title-case fallback. -/
def prettyBadge (id : String) : String :=
  jsOrOpt (BADGE_LABELS.lookup id) (prettyFallback id)

/-! ### Progress-bar percentage (gamescript.js line 62, part_000 lines 28-30) -/

/-- JS `%` on integers is truncated remainder. -/
def jsMod (a b : Int) : Int := Int.tmod a b

/-- Width set on `#xp-bar` by `loadState` in gamescript.js:
    `Math.min(100, (data.points ?? 0) % 100)`. -/
def xpBarPct (points : Int) : Int := min 100 (jsMod points 100)

/-- Percentage computed by `renderState` in part_000: `data.points % 100`. -/
def renderStatePct (points : Int) : Int := jsMod points 100

/-! ### Progress state and task completion
(gamescript.js lines 107-123, part_000 lines 76-88) -/

/-- A task as served by the backend. -/
structure Task where
  id : String
  description : String
  points : Int
  category : String
  completed : Bool
deriving DecidableEq, Repr

/-- The authoritative progress state served by the backend. -/
structure ProgressState where
  points : Int
  streak : Int
  level : String
  badges : List String
  tasks : List Task
deriving DecidableEq, Repr

/-- The parsed JSON body of a /complete_task response, viewed through both
    accesses the two scripts make of it: `data.error` (read on the failure
    branch) and the whole body as a ProgressState (rendered by part_000 on
    the success branch). -/
structure CompleteBody where
  error : Option String
  asState : ProgressState
deriving DecidableEq, Repr

/-- Observable outcome of one completeTask call: the progress state the
    client holds afterwards, the alert message (if any), whether the
    leaderboard was re-fetched, and whether an unhandled rejection escaped. -/
structure CompleteOutcome where
  state : ProgressState
  alertMsg : Option String
  leaderboardRefreshed : Bool
  threw : Bool
deriving DecidableEq, Repr

/-- `completeTask(taskId)` from gamescript.js lines 107-123.  The resolved
    /complete_task response is `resp` (`none` models a rejected fetch or
    JSON parse, handled by the catch block, which only logs).  On a
    non-ok status the handler alerts `data.error || "Could not complete
    task."` and returns.  On success it re-fetches `/get_state` (whose
    resolved body is `getStateResp`; `loadState` catches its own failures,
    leaving the prior state in place) and re-fetches the leaderboard.
    The response body is never used as the new state. -/
def gamescript_completeTask (resp : Option (Bool × CompleteBody))
    (getStateResp : Option ProgressState) (prior : ProgressState) : CompleteOutcome :=
  match resp with
  | none => { state := prior, alertMsg := none, leaderboardRefreshed := false, threw := false }
  | some (ok, body) =>
      if ok then
        { state := getStateResp.getD prior, alertMsg := none,
          leaderboardRefreshed := true, threw := false }
      else
        { state := prior,
          alertMsg := some (jsOrOpt body.error "Could not complete task."),
          leaderboardRefreshed := false, threw := false }

/-- `completeTask(taskId)` from part_000 lines 76-88.  There is no
    try/catch: a rejected fetch escapes as an unhandled rejection
    (modelled by `threw := true`).  On `res.ok` the response body itself is
    rendered as the new state via `renderState(data)`; on a non-ok status
    the handler alerts `data.error || "Could not complete task."`.
    The leaderboard is never touched (part_000 has no leaderboard code). -/
def part000_completeTask (resp : Option (Bool × CompleteBody))
    (prior : ProgressState) : CompleteOutcome :=
  match resp with
  | none => { state := prior, alertMsg := none, leaderboardRefreshed := false, threw := true }
  | some (ok, body) =>
      if ok then
        { state := body.asState, alertMsg := none,
          leaderboardRefreshed := false, threw := false }
      else
        { state := prior,
          alertMsg := some (jsOrOpt body.error "Could not complete task."),
          leaderboardRefreshed := false, threw := false }

/-- A progress state with the given points and no other content, used for
    concrete counterexample inputs. -/
def stateWithPoints (p : Int) : ProgressState :=
  { points := p, streak := 0, level := "Rookie Connector", badges := [], tasks := [] }

/-! ### Quest controller (gamescript.js lines 126-237)

The source keeps no explicit status variable; the abstract `QStatus` below
names the phases the spec distinguishes: modal hidden and no session opened
is Idle, the synchronous part of `openQuest` up to the pending /quest/start
request is Loading, the modal with a prompt shown is Active, a pending
/quest/score request is Scoring, and a hidden modal after close-quest is
Closed.  The modal anchors are assumed present (`ensureModal()` returning
true); when they are missing the handlers log and return without any of the
effects modelled here. -/

/-- Abstract quest-session phase. -/
inductive QStatus
  | Idle
  | Loading
  | Active
  | Scoring
  | Closed
deriving DecidableEq, Repr

/-- The quest session: the module-level `currentQuest` object (type and
    choice) together with the modal's prompt text, the draft in the
    text area, the score-result text, and the abstract phase. -/
structure QuestSession where
  status : QStatus
  qtype : String
  prompt : String
  draft : String
  choice : String
  feedback : String
deriving DecidableEq, Repr

/-- Page-load session: `let currentQuest = { type: "outreach", choice: "" }`
    (gamescript.js line 4) with the modal hidden and every text empty. -/
def initialSession : QuestSession :=
  { status := .Idle, qtype := "outreach", prompt := "", draft := "",
    choice := "", feedback := "" }

/-- Synchronous phase of `openQuest(type)` (gamescript.js lines 143-166),
    run from any prior session: `currentQuest = { type, choice: "" }`, the
    modal is shown at once, the prompt placeholder is set, the text area and
    score result are cleared, and every pill loses its active class.
    The /quest/start request is now pending. -/
def openQuestStart (t : String) (_s : QuestSession) : QuestSession :=
  { status := .Loading, qtype := t, prompt := "Loading scenario…",
    draft := "", choice := "", feedback := "" }

/-- `j?.scenario?.prompt || "Write your answer below."` together with the
    catch branch (gamescript.js lines 174-179).  `none` models a rejected
    /quest/start request, `some none` a resolved body without a scenario
    prompt, `some (some p)` a served prompt `p`. -/
def scenarioPrompt (scen : Option (Option String)) : String :=
  match scen with
  | some (some p) => jsOr p "Write your answer below."
  | _ => "Write your answer below."

/-- Resolution of the /quest/start request: the prompt is replaced and the
    session is usable (Active) whether or not the request succeeded. -/
def openQuestResolve (scen : Option (Option String)) (s : QuestSession) : QuestSession :=
  { s with status := .Active, prompt := scenarioPrompt scen }

/-- The close-quest button (gamescript.js line 192): the modal is hidden.
    The session data is not touched. -/
def closeQuest (s : QuestSession) : QuestSession :=
  { s with status := .Closed }

/-- The JSON payload sent to /quest/score. -/
structure ScoreRequest where
  qtype : String
  text : String
  choice : String
deriving DecidableEq, Repr

/-- Send phase of the score-quest click handler (gamescript.js lines
    214-225).  The handler has no guard on the session phase: whenever the
    modal anchors exist it sends `{ type: currentQuest.type, text:
    text.value, choice: currentQuest.choice }`, even when no quest was
    opened. -/
def scoreStart (s : QuestSession) : QuestSession × ScoreRequest :=
  ({ s with status := .Scoring },
   { qtype := s.qtype, text := s.draft, choice := s.choice })

/-- The parsed JSON body of a resolved /quest/score response.  An absent or
    empty `tips` array is modelled as `[]`: the source guards with
    `j.tips && j.tips.length`, which is falsy for both. -/
structure ScoreBody where
  earned : Int
  tips : List String
deriving DecidableEq, Repr

/-- The score-result line on success (gamescript.js line 227). -/
def scoreFeedback (b : ScoreBody) : String :=
  "+" ++ toString b.earned ++ " XP"
    ++ (match b.tips with | [] => "" | t :: _ => " • " ++ t)

/-- Resolution of the /quest/score request (gamescript.js lines 226-232):
    on success the feedback line is shown and state plus leaderboard are
    re-fetched (the returned boolean); on a rejected request the local
    error line is shown and nothing is re-fetched.  The modal stays open
    either way, so the session is Active again. -/
def scoreResolve (r : Option ScoreBody) (s : QuestSession) : QuestSession × Bool :=
  match r with
  | some b => ({ s with status := .Active, feedback := scoreFeedback b }, true)
  | none => ({ s with status := .Active, feedback := "Could not score. Try again." }, false)

/-! ### Follow-up choice pills (gamescript.js lines 195-212) -/

/-- One follow-up pill button; `dataChoice = none` models a missing
    data-choice attribute. -/
structure Pill where
  dataChoice : Option String
deriving DecidableEq, Repr

/-- The visible selection state of the pill row (one active flag per
    button, in document order) together with `currentQuest.choice`. -/
structure PillRow where
  active : List Bool
  choice : String
deriving DecidableEq, Repr

/-- The pill click handler: `currentQuest.choice = btn.dataset.choice || ""`
    and every button's active class is toggled to whether it is the clicked
    button (gamescript.js lines 199-205).  The prior row state is
    overwritten entirely, exactly as the source loops over all buttons. -/
def clickPill (pills : List Pill) (i : Fin pills.length) (_row : PillRow) : PillRow :=
  { active := (List.range pills.length).map (fun j => j == i.val),
    choice := jsOrOpt (pills.get i).dataChoice "" }

/-! ### Coach chat (gamescript.js lines 240-287) -/

/-- One observable effect of the coach-send handler, in program order. -/
inductive CoachEv
  | pushUser (text : String)
  | setStatus (text : String)
  | sendRequest (text : String)
  | pushAssistant (text : String)
deriving DecidableEq, Repr

/-- Whether an event appends an assistant message to the feed. -/
def isAssistantEv : CoachEv → Bool
  | .pushAssistant _ => true
  | _ => false

/-- JS `String.prototype.trim()`: leading and trailing whitespace removed. -/
def trimChars (l : List Char) : List Char :=
  ((l.dropWhile Char.isWhitespace).reverse.dropWhile Char.isWhitespace).reverse

/-- JS `input.value.trim()` over a Lean string. -/
def jsTrim (s : String) : String := ⟨trimChars s.data⟩

/-- A concrete pill row for witnesses, after the source comment on the
    follow-up chips: Monday, 48h, Early next week. -/
def samplePills : List Pill :=
  [{ dataChoice := some "Monday" }, { dataChoice := some "48h" },
   { dataChoice := some "Early next week" }]

/-- The assistant text pushed for a given /coach/chat outcome:
    `j.reply || "Sorry, no reply."` when the request resolved (`none` inside
    models an absent reply field), and the catch branch apology when the
    request was rejected. -/
def coachReplyText (resp : Option (Option String)) : String :=
  match resp with
  | some r => jsOrOpt r "Sorry, no reply."
  | none => "I hit a snag. Try again."

/-- The coach-send click handler (gamescript.js lines 266-286) as its trace
    of observable effects.  A blank (empty after trim) input returns before
    any effect.  Otherwise: the user message is pushed, the pending
    indicator is set (the input box is also cleared, not modelled), the
    request is sent carrying the trimmed text, exactly one assistant
    message is pushed from the try or the catch branch, and the finally
    block clears the pending indicator. -/
def coachSend (input : String) (resp : Option (Option String)) : List CoachEv :=
  let txt := jsTrim input
  if txt = "" then []
  else
    [.pushUser txt, .setStatus "Thinking…", .sendRequest txt,
     .pushAssistant (coachReplyText resp), .setStatus ""]

end NetworkingGame

namespace NetworkingGame

/-- C9: badge label resolution.  Every id present in the curated table maps
    to its exact table label (in particular badge_first_connection maps to
    the First Contact label), and every id absent from the table maps to the
    deterministic transform that replaces underscores with spaces and
    capitalizes each word (badge_custom_thing maps to Badge Custom Thing). -/
theorem prettyBadge_resolution :
    (∀ p ∈ BADGE_LABELS, prettyBadge p.1 = p.2) ∧
    prettyBadge "badge_first_connection" = "🛰️ First Contact" ∧
    prettyBadge "badge_custom_thing" = "Badge Custom Thing" ∧
    (∀ id, BADGE_LABELS.lookup id = none → prettyBadge id = prettyFallback id) := by
  refine ⟨by decide, by decide, by decide, ?_⟩
  intro id h
  simp [prettyBadge, h, jsOrOpt]

/-- Witness for C9: the unknown id branch evaluated at badge_custom_thing. -/
theorem prettyBadge_resolution_witness :
    prettyBadge "badge_custom_thing" = prettyFallback "badge_custom_thing" ∧
    prettyFallback "badge_custom_thing" = "Badge Custom Thing" :=
  ⟨prettyBadge_resolution.2.2.2 "badge_custom_thing" (by decide), by decide⟩

/-- C7: for every points value at least 0, the displayed progress-to-next-level
    percentage equals points mod 100 and lies in the interval from 0 to 99,
    in both client scripts. -/
theorem progress_pct_mod100 (p : Int) (h : 0 ≤ p) :
    xpBarPct p = p % 100 ∧ renderStatePct p = p % 100 ∧ 0 ≤ p % 100 ∧ p % 100 ≤ 99 := by
  unfold xpBarPct renderStatePct jsMod
  rw [Int.tmod_eq_emod h (by decide)]
  omega

/-- Witness for C7 at the specification example points = 145: the bar shows 45. -/
theorem progress_pct_mod100_witness :
    (0 : Int) ≤ 145 ∧ xpBarPct 145 = 145 % 100 ∧ xpBarPct 145 = 45 :=
  ⟨by decide, (progress_pct_mod100 145 (by decide)).1, by decide⟩

/-- Counterexample to C1: on a successful completion, the gamescript.js
    client does not adopt the response body as the new state (it shows the
    freshly fetched /get_state body instead), and the part_000 client never
    refreshes the leaderboard.  Here the response carries a state with 10
    points while /get_state returns 20 points. -/
theorem completeTask_response_not_adopted :
    (gamescript_completeTask (some (true, { error := none, asState := stateWithPoints 10 }))
        (some (stateWithPoints 20)) (stateWithPoints 0)).state ≠ stateWithPoints 10 ∧
    (gamescript_completeTask (some (true, { error := none, asState := stateWithPoints 10 }))
        (some (stateWithPoints 20)) (stateWithPoints 0)).state = stateWithPoints 20 ∧
    (part000_completeTask (some (true, { error := none, asState := stateWithPoints 10 }))
        (stateWithPoints 0)).leaderboardRefreshed = false := by
  decide

/-- C1 as amended: on a successful completion neither client mutates state
    optimistically; gamescript.js replaces the state with the body of a
    fresh /get_state fetch (keeping the prior state if that fetch fails) and
    refreshes the leaderboard, while part_000 adopts the completion response
    body wholesale as the new state and does not touch the leaderboard.
    On every failing completion the prior state is kept. -/
theorem completeTask_success_amended (body : CompleteBody) (gs : Option ProgressState)
    (prior : ProgressState) :
    (gamescript_completeTask (some (true, body)) gs prior).state = gs.getD prior ∧
    (gamescript_completeTask (some (true, body)) gs prior).leaderboardRefreshed = true ∧
    (gamescript_completeTask (some (true, body)) gs prior).alertMsg = none ∧
    (part000_completeTask (some (true, body)) prior).state = body.asState ∧
    (part000_completeTask (some (true, body)) prior).leaderboardRefreshed = false ∧
    (gamescript_completeTask (some (false, body)) gs prior).state = prior ∧
    (gamescript_completeTask none gs prior).state = prior ∧
    (part000_completeTask (some (false, body)) prior).state = prior :=
  ⟨rfl, rfl, rfl, rfl, rfl, rfl, rfl, rfl⟩

/-- Counterexample to C2: in gamescript.js a transport failure of
    /complete_task (rejected promise, here with /get_state also failing) is
    only logged; no user-visible message is surfaced, though the prior state
    is indeed kept. -/
theorem completeTask_transport_no_message :
    (gamescript_completeTask none none (stateWithPoints 5)).alertMsg = none ∧
    (gamescript_completeTask none none (stateWithPoints 5)).state = stateWithPoints 5 := by
  decide

/-- C2 as amended: every failed completion leaves the prior state unchanged;
    when the server responds with a non-success status, a user-visible alert
    carries the server-supplied message when present (and non-empty), else
    the generic fallback; but on transport failure gamescript.js only logs
    (no user-visible message) and part_000 lets the rejection escape
    unhandled. -/
theorem completeTask_failure_amended (body : CompleteBody) (gs : Option ProgressState)
    (prior : ProgressState) :
    (gamescript_completeTask none gs prior).state = prior ∧
    (gamescript_completeTask none gs prior).alertMsg = none ∧
    (part000_completeTask none prior).state = prior ∧
    (part000_completeTask none prior).threw = true ∧
    (gamescript_completeTask (some (false, body)) gs prior).state = prior ∧
    (gamescript_completeTask (some (false, body)) gs prior).alertMsg
      = some (jsOrOpt body.error "Could not complete task.") ∧
    (∀ m, body.error = some m → m ≠ "" →
      (gamescript_completeTask (some (false, body)) gs prior).alertMsg = some m) ∧
    (body.error = none →
      (gamescript_completeTask (some (false, body)) gs prior).alertMsg
        = some "Could not complete task.") := by
  refine ⟨rfl, rfl, rfl, rfl, rfl, rfl, ?_, ?_⟩
  · intro m hm hne
    simp [gamescript_completeTask, hm, jsOrOpt, jsOr, hne]
  · intro h
    simp [gamescript_completeTask, h, jsOrOpt]

/-- Witness for C2 as amended: a rejected mutation whose body carries the
    message "boom" surfaces exactly that message. -/
theorem completeTask_failure_amended_witness :
    (gamescript_completeTask
        (some (false, { error := some "boom", asState := stateWithPoints 0 }))
        none (stateWithPoints 1)).alertMsg = some "boom" :=
  (completeTask_failure_amended { error := some "boom", asState := stateWithPoints 0 }
    none (stateWithPoints 1)).2.2.2.2.2.2.1 "boom" rfl (by decide)

/-- Counterexample to C3: with no quest ever opened (the page-load session,
    phase Idle), clicking score-quest is not a no-op: it sends a
    /quest/score request built from the module defaults (type outreach,
    empty text and choice) and the session advances to Scoring. -/
theorem scoreQuest_idle_sends_request :
    initialSession.status = QStatus.Idle ∧
    (scoreStart initialSession).2 = { qtype := "outreach", text := "", choice := "" } ∧
    (scoreStart initialSession).1.status = QStatus.Scoring := by
  decide

/-- C3 as amended: the handlers do realize the transitions of the nominal
    order (open-start to Loading, scenario resolution to Active, score send
    to Scoring, score resolution back to Active, close to Closed), but the
    score handler carries no guard on the session phase: while Idle it
    still sends a /quest/score request with the default session and
    silently advances to Scoring. -/
theorem quest_transitions_amended (t : String) (s : QuestSession)
    (scen : Option (Option String)) (r : Option ScoreBody) :
    (openQuestStart t s).status = QStatus.Loading ∧
    (openQuestResolve scen (openQuestStart t s)).status = QStatus.Active ∧
    (scoreStart s).1.status = QStatus.Scoring ∧
    (scoreResolve r (scoreStart s).1).1.status = QStatus.Active ∧
    (closeQuest s).status = QStatus.Closed ∧
    (scoreStart initialSession).2 = { qtype := "outreach", text := "", choice := "" } ∧
    (scoreStart initialSession).1.status = QStatus.Scoring := by
  refine ⟨rfl, rfl, rfl, ?_, rfl, rfl, rfl⟩
  cases r <;> rfl

/-- C4: whatever the prior session, when the /quest/start request of an
    openQuest(type) call fails, the flow does not fail: the session still
    reaches Active with the fixed, non-empty generic prompt substituted. -/
theorem openQuest_failure_degrades (t : String) (s : QuestSession) :
    (openQuestResolve none (openQuestStart t s)).status = QStatus.Active ∧
    (openQuestResolve none (openQuestStart t s)).prompt = "Write your answer below." ∧
    (openQuestResolve none (openQuestStart t s)).prompt ≠ "" := by
  refine ⟨rfl, rfl, ?_⟩
  intro hco
  have hlit : ("Write your answer below." : String) = "" := hco
  exact absurd hlit (by decide)

/-- C5: a failed /quest/score request shows the local could-not-score line
    and leaves the session Active (retry possible, nothing re-fetched); a
    successful one shows the earned-points summary, followed by the first
    tip exactly when one is present. -/
theorem scoreQuest_feedback (s : QuestSession) (b : ScoreBody) :
    (scoreResolve none s).1.status = QStatus.Active ∧
    (scoreResolve none s).1.feedback = "Could not score. Try again." ∧
    (scoreResolve none s).2 = false ∧
    (scoreResolve (some b) s).1.status = QStatus.Active ∧
    (b.tips = [] →
      (scoreResolve (some b) s).1.feedback = "+" ++ toString b.earned ++ " XP") ∧
    (∀ tip rest, b.tips = tip :: rest →
      (scoreResolve (some b) s).1.feedback
        = "+" ++ toString b.earned ++ " XP" ++ (" • " ++ tip)) := by
  refine ⟨rfl, rfl, rfl, rfl, ?_, ?_⟩
  · intro h
    simp [scoreResolve, scoreFeedback, h]
  · intro tip rest h
    simp [scoreResolve, scoreFeedback, h]

/-- Witness for C5: scoring 4 points with one tip shows the summary and
    that tip. -/
theorem scoreQuest_feedback_witness :
    (scoreResolve (some { earned := 4, tips := ["Keep it short"] }) initialSession).1.feedback
      = "+" ++ toString (4 : Int) ++ " XP" ++ (" • " ++ "Keep it short") :=
  (scoreQuest_feedback initialSession { earned := 4, tips := ["Keep it short"] }).2.2.2.2.2
    "Keep it short" [] rfl

/-- Helper: in the row of active flags produced by a pill click, exactly
    one flag is true. -/
theorem count_true_range_beq (n b : Nat) (hb : b < n) :
    ((List.range n).map (fun j => j == b)).count true = 1 := by
  rw [List.count_eq_countP, List.countP_map]
  have h2 : ((fun x => x == true) ∘ fun j : Nat => j == b) = (fun j : Nat => j == b) := by
    funext j
    simp
  rw [h2,
    show List.countP (fun j : Nat => j == b) (List.range n) = (List.range n).count b from rfl]
  exact List.count_eq_one_of_mem (List.nodup_range n) (List.mem_range.mpr hb)

/-- C8: pill selection is exclusive.  After clicking pill a and then pill b
    (whose data-choice is a non-empty c), the stored choice is c, exactly
    one pill carries the active class, it is pill b, and every other pill
    is inactive.  Scoring is permitted with no choice selected: the score
    handler still sends, carrying the empty choice. -/
theorem pill_click_exclusive (pills : List Pill) (a b : Fin pills.length)
    (row : PillRow) (c : String)
    (hc : (pills.get b).dataChoice = some c) (hne : c ≠ "") :
    (clickPill pills b (clickPill pills a row)).choice = c ∧
    (clickPill pills b (clickPill pills a row)).active.count true = 1 ∧
    (clickPill pills b (clickPill pills a row)).active[b.val]? = some true ∧
    (∀ j, j < pills.length → j ≠ b.val →
      (clickPill pills b (clickPill pills a row)).active[j]? = some false) ∧
    (∀ s : QuestSession, s.choice = "" →
      (scoreStart s).2.choice = "" ∧ (scoreStart s).1.status = QStatus.Scoring) := by
  refine ⟨?_, ?_, ?_, ?_, ?_⟩
  · rw [List.get_eq_getElem] at hc
    simp [clickPill, hc, jsOrOpt, jsOr, hne]
  · exact count_true_range_beq pills.length b.val b.isLt
  · show ((List.range pills.length).map (fun j => j == b.val))[b.val]? = some true
    rw [List.getElem?_map, List.getElem?_range b.isLt]
    simp
  · intro j hj hjb
    show ((List.range pills.length).map (fun j => j == b.val))[j]? = some false
    rw [List.getElem?_map, List.getElem?_range hj]
    simp [hjb]
  · intro s hs
    exact ⟨hs, rfl⟩

/-- Witness for C8: on the sample row, clicking Monday then 48h leaves
    exactly the second pill active with choice 48h. -/
theorem pill_click_exclusive_witness :
    (clickPill samplePills ⟨1, by decide⟩
        (clickPill samplePills ⟨0, by decide⟩ { active := [], choice := "" })).choice = "48h" ∧
    (clickPill samplePills ⟨1, by decide⟩
        (clickPill samplePills ⟨0, by decide⟩
          { active := [], choice := "" })).active.count true = 1 :=
  have h := pill_click_exclusive samplePills ⟨0, by decide⟩ ⟨1, by decide⟩
    { active := [], choice := "" } "48h" rfl (by decide)
  ⟨h.1, h.2.1⟩

/-- C6: a coach send with non-blank input pushes the user message to the
    feed strictly before the request is sent, no assistant message precedes
    the request, exactly one assistant message follows it (the reply when a
    non-empty one is present, a fixed apology when the reply is absent,
    empty, or the request was rejected), and the trailing event clears the
    pending indicator. -/
theorem coachSend_per_send (input : String) (resp : Option (Option String))
    (h : jsTrim input ≠ "") :
    ∃ pre post,
      coachSend input resp = pre ++ CoachEv.sendRequest (jsTrim input) :: post ∧
      CoachEv.pushUser (jsTrim input) ∈ pre ∧
      pre.filter isAssistantEv = [] ∧
      post.filter isAssistantEv = [CoachEv.pushAssistant (coachReplyText resp)] ∧
      post.getLast? = some (CoachEv.setStatus "") ∧
      (∀ r, resp = some (some r) → r ≠ "" → coachReplyText resp = r) ∧
      (resp = none → coachReplyText resp = "I hit a snag. Try again.") ∧
      (resp = some none ∨ resp = some (some "") →
        coachReplyText resp = "Sorry, no reply.") := by
  refine ⟨[.pushUser (jsTrim input), .setStatus "Thinking…"],
    [.pushAssistant (coachReplyText resp), .setStatus ""],
    ?_, ?_, rfl, rfl, rfl, ?_, ?_, ?_⟩
  · simp [coachSend, h]
  · simp
  · intro r hr hrne
    simp [coachReplyText, hr, jsOrOpt, jsOr, hrne]
  · intro hr
    simp [coachReplyText, hr]
  · intro hr
    rcases hr with hr | hr <;> simp [coachReplyText, hr, jsOrOpt, jsOr]

/-- Witness for C6: sending the text hi with a resolved reply hello. -/
theorem coachSend_per_send_witness :
    ∃ pre post,
      coachSend "hi" (some (some "hello"))
        = pre ++ CoachEv.sendRequest (jsTrim "hi") :: post ∧
      CoachEv.pushUser (jsTrim "hi") ∈ pre ∧
      pre.filter isAssistantEv = [] ∧
      post.filter isAssistantEv
        = [CoachEv.pushAssistant (coachReplyText (some (some "hello")))] ∧
      post.getLast? = some (CoachEv.setStatus "") ∧
      (∀ r, (some (some "hello") : Option (Option String)) = some (some r) → r ≠ "" →
        coachReplyText (some (some "hello")) = r) ∧
      ((some (some "hello") : Option (Option String)) = none →
        coachReplyText (some (some "hello")) = "I hit a snag. Try again.") ∧
      ((some (some "hello") : Option (Option String)) = some none ∨
          (some (some "hello") : Option (Option String)) = some (some "") →
        coachReplyText (some (some "hello")) = "Sorry, no reply.") :=
  coachSend_per_send "hi" (some (some "hello")) (by decide)

/-- C10: a coach send whose input is empty or whitespace-only is a complete
    no-op: its effect trace is empty, so nothing is appended, no request is
    sent, and no pending indicator is shown. -/
theorem coachSend_blank_noop (input : String) (resp : Option (Option String))
    (h : jsTrim input = "") :
    coachSend input resp = [] := by
  simp [coachSend, h]

/-- Witness for C10: a three-space input with a rejected request produces
    no effect at all. -/
theorem coachSend_blank_noop_witness :
    coachSend "   " none = [] :=
  coachSend_blank_noop "   " none (by decide)

end NetworkingGame
